import Mathlib

/-!
Verification development for the `doxyllm-it` repository, a collection of
four C++ header files (`examples/example.hpp`, `test_improved.hpp`,
`test_ollama.hpp`, `test_span_methods.hpp`).

The headers are mostly declarations, but a few functions carry inline
bodies, which we embed semantically below.  The declaration-level shape of
the repository (which symbols exist, which carry Doxygen comments, which
have bodies) is embedded as explicit data transcribed from the files, and
the raw text of the malformed comment region of `test_ollama.hpp` is
embedded verbatim for the lexical claims.
-/

namespace DoxyllmIt

/-! ## Semantic embedding of `test_span_methods.hpp`

The file declares `class TestSpan` with six `constexpr` member functions,
all bodies being single `return` expressions reading the (undeclared in
this fragment, but used) member `storage_` with fields `ptr` and `size`.
Pointers are modelled as natural-number addresses measured in elements, so
C++ pointer arithmetic `data() + size()` is `Nat` addition. -/

/-- The `storage_` member used by `TestSpan`'s accessors: a pointer
(address, in elements) and an element count. -/
structure Storage where
  ptr : Nat
  size : Nat
deriving DecidableEq, Repr

/-- The class `TestSpan` from `test_span_methods.hpp`. -/
structure TestSpan where
  storage_ : Storage
deriving DecidableEq, Repr

/-- Body of `size`: `constexpr size_type size() const noexcept { return storage_.size; }` -/
def TestSpan.size (s : TestSpan) : Nat := s.storage_.size

/-- Body of `size_bytes`: `constexpr size_type size_bytes() const noexcept
    { return size() * sizeof(element_type); }`.
`element_type` is not defined in the fragment, so `sizeof(element_type)`
is passed as the explicit parameter `es`. -/
def TestSpan.size_bytes (es : Nat) (s : TestSpan) : Nat := s.size * es

/-- Body of `empty`: `constexpr bool empty() const noexcept { return size() == 0; }` -/
def TestSpan.empty (s : TestSpan) : Bool := s.size == 0

/-- Body of `data`: `constexpr pointer data() const noexcept { return storage_.ptr; }` -/
def TestSpan.data (s : TestSpan) : Nat := s.storage_.ptr

/-- Body of `begin`: `constexpr iterator begin() const noexcept { return data(); }` -/
def TestSpan.begin (s : TestSpan) : Nat := s.data

/-- Body of `end`: `constexpr iterator end() const noexcept { return data() + size(); }`
(`end` is a Lean keyword, hence the trailing underscore). -/
def TestSpan.end_ (s : TestSpan) : Nat := s.data + s.size

/-! ## Semantic embedding of the bodied parts of `examples/example.hpp` -/

/-- The enum `Backend` from `examples/example.hpp`. -/
inductive Backend where
  | OpenGL
  | Vulkan
  | DirectX12
deriving DecidableEq, Repr

/-- The data members of `class Renderer` (`examples/example.hpp`,
lines 96-97): `Backend backend_; bool initialized_;`. -/
structure Renderer where
  backend_ : Backend
  initialized_ : Bool
deriving DecidableEq, Repr

/-- Body of `isInitialized`: `bool isInitialized() const { return initialized_; }`
(`examples/example.hpp`, line 85) — the only member function of
`Renderer` with a body. -/
def Renderer.isInitialized (r : Renderer) : Bool := r.initialized_

/-- The struct `AppConfig` from `examples/example.hpp`, lines 159-164, with
its default member initializers (`width = 800`, `height = 600`,
`fullscreen = false`; `title` has none, so a default-constructed
`std::string` is empty). -/
structure AppConfig where
  title : String
  width : Int
  height : Int
  fullscreen : Bool
deriving DecidableEq, Repr

/-- A default-constructed `AppConfig`: every member takes its default
member initializer, and `title` is value-initialized to the empty
string. -/
def AppConfig.mkDefault : AppConfig :=
  { title := "", width := 800, height := 600, fullscreen := false }

/-! ## Error-monad embeddings of the bodied functions

Each C++ body is a single `return` of a side-effect-free expression with
no `throw`, no error code and no failure branch.  To make that a theorem
rather than a typing convention, each body is re-embedded in the
exception monad `Except String` exactly as written (a `throw` in the
source would become `Except.error`); the embeddings are then proved to
always return `Except.ok` of the pure value. -/

/-- Function `TestSpan::size` in the exception monad. -/
def TestSpan.sizeE (s : TestSpan) : Except String Nat :=
  pure s.storage_.size

/-- Function `TestSpan::size_bytes` in the exception monad. -/
def TestSpan.size_bytesE (es : Nat) (s : TestSpan) : Except String Nat :=
  pure (s.size * es)

/-- Function `TestSpan::empty` in the exception monad. -/
def TestSpan.emptyE (s : TestSpan) : Except String Bool :=
  pure (s.size == 0)

/-- Function `TestSpan::data` in the exception monad. -/
def TestSpan.dataE (s : TestSpan) : Except String Nat :=
  pure s.storage_.ptr

/-- Function `TestSpan::begin` in the exception monad. -/
def TestSpan.beginE (s : TestSpan) : Except String Nat :=
  pure s.data

/-- Function `TestSpan::end` in the exception monad. -/
def TestSpan.endE (s : TestSpan) : Except String Nat :=
  pure (s.data + s.size)

/-- Function `Renderer::isInitialized` in the exception monad. -/
def Renderer.isInitializedE (r : Renderer) : Except String Bool :=
  pure r.initialized_

/-! ## Claims C4, C5, C7, C3 -/

/-- Claim C4: for every `TestSpan` value, `empty()` returns `true` if and
only if `size()` returns `0`. -/
theorem claim4_empty_iff_size_zero (s : TestSpan) :
    s.empty = true ↔ s.size = 0 := by
  simp [TestSpan.empty]

/-- Claim C5: for every `TestSpan` value, `begin()` equals `data()`,
`end()` equals `data() + size()`, and the half-open iterator range
`[begin(), end())` spans exactly `size()` elements (both as the address
difference and as the cardinality of the interval of addresses). -/
theorem claim5_iterator_range (s : TestSpan) :
    s.begin = s.data ∧ s.end_ = s.data + s.size ∧
    s.end_ - s.begin = s.size ∧
    (Finset.Ico s.begin s.end_).card = s.size := by
  refine ⟨rfl, rfl, ?_, ?_⟩
  · simp [TestSpan.end_, TestSpan.begin]
  · simp [TestSpan.end_, TestSpan.begin]

/-- Claim C7: a default-constructed `AppConfig` has `width = 800`,
`height = 600`, `fullscreen = false`, and an empty `title` string. -/
theorem claim7_appconfig_defaults :
    AppConfig.mkDefault.width = 800 ∧ AppConfig.mkDefault.height = 600 ∧
    AppConfig.mkDefault.fullscreen = false ∧
    AppConfig.mkDefault.title = "" :=
  ⟨rfl, rfl, rfl, rfl⟩

/-- Claim C3: no operation defined in the repository can fail: each of the
seven functions that have bodies (the six `TestSpan` accessors and
`Renderer::isInitialized`), embedded in the exception monad exactly as
written, returns `Except.ok` of its pure value on every input — there is
no error branch. -/
theorem claim3_no_error_branch (s : TestSpan) (r : Renderer) (es : Nat) :
    s.sizeE = .ok s.size ∧
    s.size_bytesE es = .ok (s.size_bytes es) ∧
    s.emptyE = .ok s.empty ∧
    s.dataE = .ok s.data ∧
    s.beginE = .ok s.begin ∧
    s.endE = .ok s.end_ ∧
    r.isInitializedE = .ok r.isInitialized :=
  ⟨rfl, rfl, rfl, rfl, rfl, rfl, rfl⟩

/-! ## Declaration-level model of the repository

The four header files are transcribed declaration by declaration.  Each
declaration records the file it lives in, its qualified name, its kind,
whether a Doxygen-style documentation comment (a `/** ... */ ` block or a
`///`-style comment) immediately precedes or annotates it, and — for
functions — its body, when the source gives one, as a term of a small
C++ expression language.  The expression language also has constructors
for control flow (`ite`, `whileLoop`), assignment and `throw`, so that
"no body uses control flow / writes state / throws" are meaningful
statements about the transcribed bodies rather than artifacts of an
impoverished syntax. -/

/-- A small C++ expression language, rich enough to transcribe the bodies
appearing in the repository and to express features (control flow,
assignment, `throw`) that would make the absence claims false if any body
used them.  Every call in the repository is nullary, so `call` carries
only the callee name. -/
inductive Expr where
  | intLit (n : Int)
  | var (name : String)
  | field (base : Expr) (name : String)
  | call (fn : String)
  | sizeofTy (ty : String)
  | add (a b : Expr)
  | mul (a b : Expr)
  | eqOp (a b : Expr)
  | ite (c t e : Expr)
  | whileLoop (c body : Expr)
  | assign (lhs : String) (rhs : Expr)
  | throwExc (what : Expr)
deriving DecidableEq, Repr

/-- Kinds of C++ declarations occurring in the repository. -/
inductive DeclKind where
  | funcDecl
  | classDecl
  | enumDecl
  | enumeratorDecl
  | namespaceDecl
  | memberDecl
  | varDecl
  | typedefDecl
deriving DecidableEq, Repr

/-- One transcribed declaration of the repository. -/
structure Decl where
  file : String
  name : String
  kind : DeclKind
  hasDoc : Bool
  body : Option Expr
deriving DecidableEq, Repr

/-- Whether an expression contains control flow (a conditional or a
loop). -/
def Expr.hasControlFlow : Expr → Bool
  | .intLit _ => false
  | .var _ => false
  | .field b _ => b.hasControlFlow
  | .call _ => false
  | .sizeofTy _ => false
  | .add a b => a.hasControlFlow || b.hasControlFlow
  | .mul a b => a.hasControlFlow || b.hasControlFlow
  | .eqOp a b => a.hasControlFlow || b.hasControlFlow
  | .ite _ _ _ => true
  | .whileLoop _ _ => true
  | .assign _ rhs => rhs.hasControlFlow
  | .throwExc w => w.hasControlFlow

/-- Whether an expression writes state (contains an assignment). -/
def Expr.writesState : Expr → Bool
  | .intLit _ => false
  | .var _ => false
  | .field b _ => b.writesState
  | .call _ => false
  | .sizeofTy _ => false
  | .add a b => a.writesState || b.writesState
  | .mul a b => a.writesState || b.writesState
  | .eqOp a b => a.writesState || b.writesState
  | .ite c t e => c.writesState || t.writesState || e.writesState
  | .whileLoop c body => c.writesState || body.writesState
  | .assign _ _ => true
  | .throwExc w => w.writesState

/-- Whether an expression throws (contains a `throw`). -/
def Expr.throws : Expr → Bool
  | .intLit _ => false
  | .var _ => false
  | .field b _ => b.throws
  | .call _ => false
  | .sizeofTy _ => false
  | .add a b => a.throws || b.throws
  | .mul a b => a.throws || b.throws
  | .eqOp a b => a.throws || b.throws
  | .ite c t e => c.throws || t.throws || e.throws
  | .whileLoop c body => c.throws || body.throws
  | .assign _ rhs => rhs.throws
  | .throwExc _ => true

/-- Whether an expression calls one of the named functions. -/
def Expr.callsAny (prims : List String) : Expr → Bool
  | .intLit _ => false
  | .var _ => false
  | .field b _ => b.callsAny prims
  | .call fn => prims.contains fn
  | .sizeofTy _ => false
  | .add a b => a.callsAny prims || b.callsAny prims
  | .mul a b => a.callsAny prims || b.callsAny prims
  | .eqOp a b => a.callsAny prims || b.callsAny prims
  | .ite c t e => c.callsAny prims || t.callsAny prims || e.callsAny prims
  | .whileLoop c body => c.callsAny prims || body.callsAny prims
  | .assign _ rhs => rhs.callsAny prims
  | .throwExc w => w.callsAny prims

/-- Declarations of `test_ollama.hpp` (every one carries a documentation
block; none has a body). -/
def test_ollama_decls : List Decl :=
  [ { file := "test_ollama.hpp", name := "Test",
      kind := .namespaceDecl, hasDoc := true, body := none },
    { file := "test_ollama.hpp", name := "Test::MyClass",
      kind := .classDecl, hasDoc := true, body := none },
    { file := "test_ollama.hpp", name := "Test::MyClass::myFunction",
      kind := .funcDecl, hasDoc := true, body := none },
    { file := "test_ollama.hpp", name := "Test::MyClass::myVariable",
      kind := .memberDecl, hasDoc := true, body := none },
    { file := "test_ollama.hpp", name := "Test::globalFunction",
      kind := .funcDecl, hasDoc := true, body := none } ]

/-- Declarations of `test_improved.hpp`.  `privateField_`, the global
`globalFunction(int)` and `globalVariable` (lines 41, 44-45) have no
documentation comment. -/
def test_improved_decls : List Decl :=
  [ { file := "test_improved.hpp", name := "TestNamespace",
      kind := .namespaceDecl, hasDoc := true, body := none },
    { file := "test_improved.hpp", name := "TestNamespace::TestClass",
      kind := .classDecl, hasDoc := true, body := none },
    { file := "test_improved.hpp",
      name := "TestNamespace::TestClass::publicMethod",
      kind := .funcDecl, hasDoc := true, body := none },
    { file := "test_improved.hpp",
      name := "TestNamespace::TestClass::publicField",
      kind := .memberDecl, hasDoc := true, body := none },
    { file := "test_improved.hpp",
      name := "TestNamespace::TestClass::privateMethod",
      kind := .funcDecl, hasDoc := true, body := none },
    { file := "test_improved.hpp",
      name := "TestNamespace::TestClass::privateField_",
      kind := .memberDecl, hasDoc := false, body := none },
    { file := "test_improved.hpp", name := "TestNamespace::globalFunction",
      kind := .funcDecl, hasDoc := false, body := none },
    { file := "test_improved.hpp", name := "TestNamespace::globalVariable",
      kind := .varDecl, hasDoc := false, body := none } ]

/-- Declarations of `examples/example.hpp`.  The undocumented ones
(plain `//` comments are not documentation) are `drawSprite`,
`Renderer2D::initializeBackend`, `shutdownGraphics`, `Utils::clamp` and
`g_debugMode`.  `isInitialized` (line 85) is the only function with a
body: `return initialized_;`. -/
def example_decls : List Decl :=
  [ { file := "examples/example.hpp", name := "Graphics",
      kind := .namespaceDecl, hasDoc := true, body := none },
    { file := "examples/example.hpp", name := "Graphics::Scene",
      kind := .classDecl, hasDoc := true, body := none },
    { file := "examples/example.hpp", name := "Graphics::Backend",
      kind := .enumDecl, hasDoc := true, body := none },
    { file := "examples/example.hpp", name := "Graphics::Backend::OpenGL",
      kind := .enumeratorDecl, hasDoc := true, body := none },
    { file := "examples/example.hpp", name := "Graphics::Backend::Vulkan",
      kind := .enumeratorDecl, hasDoc := true, body := none },
    { file := "examples/example.hpp",
      name := "Graphics::Backend::DirectX12",
      kind := .enumeratorDecl, hasDoc := true, body := none },
    { file := "examples/example.hpp", name := "Graphics::Renderer",
      kind := .classDecl, hasDoc := true, body := none },
    { file := "examples/example.hpp",
      name := "Graphics::Renderer::Renderer()",
      kind := .funcDecl, hasDoc := true, body := none },
    { file := "examples/example.hpp",
      name := "Graphics::Renderer::Renderer(Backend)",
      kind := .funcDecl, hasDoc := true, body := none },
    { file := "examples/example.hpp",
      name := "Graphics::Renderer::~Renderer",
      kind := .funcDecl, hasDoc := true, body := none },
    { file := "examples/example.hpp",
      name := "Graphics::Renderer::initialize",
      kind := .funcDecl, hasDoc := true, body := none },
    { file := "examples/example.hpp", name := "Graphics::Renderer::render",
      kind := .funcDecl, hasDoc := true, body := none },
    { file := "examples/example.hpp",
      name := "Graphics::Renderer::setBackend",
      kind := .funcDecl, hasDoc := true, body := none },
    { file := "examples/example.hpp",
      name := "Graphics::Renderer::getBackend",
      kind := .funcDecl, hasDoc := true, body := none },
    { file := "examples/example.hpp",
      name := "Graphics::Renderer::isInitialized",
      kind := .funcDecl, hasDoc := true,
      body := some (.var ("initialized_")) },
    { file := "examples/example.hpp",
      name := "Graphics::Renderer::initializeBackend",
      kind := .funcDecl, hasDoc := true, body := none },
    { file := "examples/example.hpp",
      name := "Graphics::Renderer::backend_",
      kind := .memberDecl, hasDoc := true, body := none },
    { file := "examples/example.hpp",
      name := "Graphics::Renderer::initialized_",
      kind := .memberDecl, hasDoc := true, body := none },
    { file := "examples/example.hpp",
      name := "Graphics::Renderer::renderInternal",
      kind := .funcDecl, hasDoc := true, body := none },
    { file := "examples/example.hpp", name := "Graphics::Renderer2D",
      kind := .classDecl, hasDoc := true, body := none },
    { file := "examples/example.hpp",
      name := "Graphics::Renderer2D::Renderer2D()",
      kind := .funcDecl, hasDoc := true, body := none },
    { file := "examples/example.hpp",
      name := "Graphics::Renderer2D::drawSprite",
      kind := .funcDecl, hasDoc := false, body := none },
    { file := "examples/example.hpp",
      name := "Graphics::Renderer2D::initializeBackend",
      kind := .funcDecl, hasDoc := false, body := none },
    { file := "examples/example.hpp", name := "Graphics::createRenderer",
      kind := .funcDecl, hasDoc := true, body := none },
    { file := "examples/example.hpp", name := "Graphics::shutdownGraphics",
      kind := .funcDecl, hasDoc := false, body := none },
    { file := "examples/example.hpp", name := "Graphics::Utils",
      kind := .namespaceDecl, hasDoc := true, body := none },
    { file := "examples/example.hpp", name := "Graphics::Utils::rgbToHsv",
      kind := .funcDecl, hasDoc := true, body := none },
    { file := "examples/example.hpp", name := "Graphics::Utils::clamp",
      kind := .funcDecl, hasDoc := false, body := none },
    { file := "examples/example.hpp", name := "AppConfig",
      kind := .classDecl, hasDoc := true, body := none },
    { file := "examples/example.hpp", name := "AppConfig::title",
      kind := .memberDecl, hasDoc := true, body := none },
    { file := "examples/example.hpp", name := "AppConfig::width",
      kind := .memberDecl, hasDoc := true, body := none },
    { file := "examples/example.hpp", name := "AppConfig::height",
      kind := .memberDecl, hasDoc := true, body := none },
    { file := "examples/example.hpp", name := "AppConfig::fullscreen",
      kind := .memberDecl, hasDoc := true, body := none },
    { file := "examples/example.hpp", name := "runApplication",
      kind := .funcDecl, hasDoc := true, body := none },
    { file := "examples/example.hpp", name := "g_debugMode",
      kind := .varDecl, hasDoc := false, body := none },
    { file := "examples/example.hpp", name := "RendererPtr",
      kind := .typedefDecl, hasDoc := true, body := none },
    { file := "examples/example.hpp", name := "StringVector",
      kind := .typedefDecl, hasDoc := true, body := none } ]

/-- Declarations of `test_span_methods.hpp`: the class `TestSpan` and its
six member functions, each with its single-`return` body transcribed and
none carrying a documentation comment. -/
def test_span_decls : List Decl :=
  [ { file := "test_span_methods.hpp", name := "TestSpan",
      kind := .classDecl, hasDoc := false, body := none },
    { file := "test_span_methods.hpp", name := "TestSpan::size",
      kind := .funcDecl, hasDoc := false,
      body := some (.field (.var ("storage_")) ("size")) },
    { file := "test_span_methods.hpp", name := "TestSpan::size_bytes",
      kind := .funcDecl, hasDoc := false,
      body := some (.mul (.call ("size"))
        (.sizeofTy ("element_type"))) },
    { file := "test_span_methods.hpp", name := "TestSpan::empty",
      kind := .funcDecl, hasDoc := false,
      body := some (.eqOp (.call ("size")) (.intLit 0)) },
    { file := "test_span_methods.hpp", name := "TestSpan::data",
      kind := .funcDecl, hasDoc := false,
      body := some (.field (.var ("storage_")) ("ptr")) },
    { file := "test_span_methods.hpp", name := "TestSpan::begin",
      kind := .funcDecl, hasDoc := false,
      body := some (.call ("data")) },
    { file := "test_span_methods.hpp", name := "TestSpan::end",
      kind := .funcDecl, hasDoc := false,
      body := some (.add (.call ("data")) (.call ("size"))) } ]

/-- All declarations of the repository. -/
def repoDecls : List Decl :=
  test_ollama_decls ++ test_improved_decls ++ example_decls ++
    test_span_decls

/-- The `#include` directives appearing in the repository (all in
`examples/example.hpp`, lines 9-11; the other three headers include
nothing). -/
def repoIncludes : List String := ["vector", "string", "memory"]

/-! ## Claims C1, C2, C9, C10 -/

/-- Claim C1 as stated — "no function in the repository has an executable
body" — is false: `test_span_methods.hpp` gives all six `TestSpan`
member functions inline bodies, and `Graphics::Renderer::isInitialized`
(`examples/example.hpp`, line 85) has the body `return initialized_;`. -/
theorem claim1_counterexample :
    ¬ (∀ d ∈ repoDecls, d.kind = .funcDecl → d.body = none) := by
  decide

/-- Claim C1, amended: exactly seven functions in the repository have
executable bodies — `Graphics::Renderer::isInitialized` and the six
`TestSpan` accessors — and every body present is a single side-effect-free
return expression with no control flow; every other declaration has no
body. -/
theorem claim1_bodied_functions :
    (repoDecls.filter (fun d => d.body.isSome)).map Decl.name =
      ["Graphics::Renderer::isInitialized", "TestSpan::size",
       "TestSpan::size_bytes", "TestSpan::empty", "TestSpan::data",
       "TestSpan::begin", "TestSpan::end"] ∧
    (∀ d ∈ repoDecls, ∀ e ∈ d.body, e.hasControlFlow = false) ∧
    (∀ d ∈ repoDecls, ∀ e ∈ d.body, e.writesState = false) := by
  decide

/-- Claim C2 as stated — "no data member holds state that any operation
of the program reads" — is false: the value returned by `TestSpan::size`
depends on the `storage_` member (and `Renderer::isInitialized` on
`initialized_`), so these operations read member state.  Formally, the
operations are not constant in the object state. -/
theorem claim2_counterexample :
    ¬ ((∀ s t : TestSpan, s.size = t.size) ∧
       (∀ r q : Renderer, r.isInitialized = q.isInitialized)) := by
  intro h
  have h01 := h.1 ⟨⟨0, 0⟩⟩ ⟨⟨0, 1⟩⟩
  simp [TestSpan.size] at h01

/-- Claim C2, amended: the data members `TestSpan::storage_` and
`Renderer::initialized_` are read by the inline accessors (`size` returns
different values on states differing only in `storage_`, and
`isInitialized` on states differing only in `initialized_`);
`isInitialized` reads nothing besides `initialized_` (it is independent
of `backend_`), and no transcribed body writes any member. -/
theorem claim2_state_access :
    TestSpan.size ⟨⟨0, 0⟩⟩ ≠ TestSpan.size ⟨⟨0, 1⟩⟩ ∧
    Renderer.isInitialized ⟨.OpenGL, false⟩ ≠
      Renderer.isInitialized ⟨.OpenGL, true⟩ ∧
    (∀ b b' : Backend, ∀ i : Bool,
      Renderer.isInitialized ⟨b, i⟩ = Renderer.isInitialized ⟨b', i⟩) ∧
    (∀ d ∈ repoDecls, ∀ e ∈ d.body, e.writesState = false) :=
  ⟨by decide, by decide, fun _ _ _ => rfl, by decide⟩

/-- Names of standard C++ concurrency facilities: headers and the
functions or types they provide. -/
def concurrencyNames : List String :=
  ["thread", "mutex", "atomic", "future", "condition_variable",
   "std::thread", "std::mutex", "std::async", "std::atomic",
   "std::condition_variable", "std::lock_guard", "std::unique_lock"]

/-- Claim C9: no concurrency construct exists in the repository — none of
the concurrency headers is included anywhere, and no transcribed function
body calls any thread-creation, locking or other concurrency facility. -/
theorem claim9_no_concurrency :
    (∀ h ∈ concurrencyNames, h ∉ repoIncludes) ∧
    (∀ d ∈ repoDecls, ∀ e ∈ d.body,
      e.callsAny concurrencyNames = false) := by
  decide

/-- Claim C10: the repository mixes documented and undocumented symbols:
some declarations carry a Doxygen-style comment, while
`Graphics::Renderer2D::drawSprite` and `Graphics::shutdownGraphics` (among
others, such as `TestNamespace::globalFunction` and
`TestNamespace::globalVariable`) are declared with no documentation
comment at all. -/
theorem claim10_doc_coverage :
    (∃ d ∈ repoDecls, d.hasDoc = true) ∧
    (∃ d ∈ repoDecls,
      d.name = "Graphics::Renderer2D::drawSprite" ∧ d.hasDoc = false) ∧
    (∃ d ∈ repoDecls,
      d.name = "Graphics::shutdownGraphics" ∧ d.hasDoc = false) ∧
    (∃ d ∈ repoDecls,
      d.name = "TestNamespace::globalFunction" ∧ d.hasDoc = false) ∧
    (∃ d ∈ repoDecls,
      d.name = "TestNamespace::globalVariable" ∧ d.hasDoc = false) := by
  decide

/-! ## Lexical model: block comments in C++ source text

C++ translation phase 3 removes each comment before any further
processing, so documentation comments cannot influence the meaning of a
program.  `stripAux` scans a character list tracking whether the scanner
is inside a `/* ... */ ` block comment and keeps exactly the characters
outside comments; `strayCloseAux` counts occurrences of the terminator
`*/ ` outside any comment (which the C++ lexer would tokenize as `*`
followed by `/`, i.e. an unmatched comment terminator). -/

/-- Drop block-comment content: keep the characters outside `/* ... */ `
regions.  The flag records whether the scanner is currently inside a
comment. -/
def stripAux : List Char → Bool → List Char
  | [], _ => []
  | [c], false => [c]
  | [_], true => []
  | c :: d :: rest, false =>
      if c = '/' ∧ d = '*' then stripAux rest true
      else c :: stripAux (d :: rest) false
  | c :: d :: rest, true =>
      if c = '*' ∧ d = '/' then stripAux rest false
      else stripAux (d :: rest) true

/-- The comment-removal phase: text with block comments stripped. -/
def stripComments (l : List Char) : List Char := stripAux l false

/-- Count the comment terminators `*/ ` occurring outside any comment. -/
def strayCloseAux : List Char → Bool → Nat
  | [], _ => 0
  | [_], _ => 0
  | c :: d :: rest, false =>
      if c = '/' ∧ d = '*' then strayCloseAux rest true
      else if c = '*' ∧ d = '/' then 1 + strayCloseAux rest false
      else strayCloseAux (d :: rest) false
  | c :: d :: rest, true =>
      if c = '*' ∧ d = '/' then strayCloseAux rest false
      else strayCloseAux (d :: rest) true

/-- Number of unmatched comment terminators in a text. -/
def strayCloseCount (l : List Char) : Nat := strayCloseAux l false

/-- Test whether the first list is an initial segment of the second. -/
def startsWith : List Char → List Char → Bool
  | [], _ => true
  | _ :: _, [] => false
  | p :: ps, c :: cs => p == c && startsWith ps cs

/-- Test whether the first list occurs as a contiguous segment of the
second. -/
def occursIn (pat : List Char) : List Char → Bool
  | [] => startsWith pat []
  | c :: cs => startsWith pat (c :: cs) || occursIn pat cs

/-- Test whether a text contains the two-character sequence `*/ `. -/
def hasStarSlash : List Char → Bool
  | [] => false
  | [_] => false
  | c :: d :: rest =>
      decide (c = '*' ∧ d = '/') || hasStarSlash (d :: rest)

/-- Wrap a comment body in block-comment delimiters: `/*` body `*/ `. -/
def mkBlockComment (body : List Char) : List Char :=
  '/' :: '*' :: body ++ ['*', '/']

/-- Scanning inside a comment whose body contains no terminator, the
scanner exits exactly at the closing `*/ ` and continues outside. -/
theorem stripAux_exit (r : List Char) :
    ∀ body : List Char, hasStarSlash body = false →
      stripAux (body ++ '*' :: '/' :: r) true = stripAux r false := by
  intro body
  induction body with
  | nil => intro _; simp [stripAux]
  | cons c tail ih =>
    intro h
    cases tail with
    | nil =>
      simp [stripAux]
    | cons d rest =>
      simp only [hasStarSlash, Bool.or_eq_false_iff,
        decide_eq_false_iff_not] at h
      simp only [List.cons_append, stripAux, if_neg h.1]
      exact ih h.2

/-- Prepending a well-formed block comment to a text does not change the
output of the comment-removal phase. -/
theorem stripComments_insert (body rest : List Char)
    (h : hasStarSlash body = false) :
    stripComments (mkBlockComment body ++ rest) = stripComments rest := by
  unfold stripComments mkBlockComment
  have hassoc : (('/' :: '*' :: body ++ ['*', '/']) ++ rest) =
      '/' :: '*' :: (body ++ '*' :: '/' :: rest) := by simp
  rw [hassoc]
  have hopen : stripAux ('/' :: '*' :: (body ++ '*' :: '/' :: rest)) false =
      stripAux (body ++ '*' :: '/' :: rest) true := by
    simp [stripAux]
  rw [hopen]
  exact stripAux_exit rest body h

/-! ## Embedded source texts

The braces of the C++ sources are written with the escapes `\x7b` and
`\x7d` inside the Lean string literals; the strings are otherwise the
verbatim file contents. -/

/-- Verbatim text of `test_span_methods.hpp`. -/
def test_span_methods_text : String :=
  "class TestSpan \x7b
public:
    constexpr size_type size() const noexcept \x7b return storage_.size; \x7d
    constexpr size_type size_bytes() const noexcept \x7b return size() * sizeof(element_type); \x7d
    TCB_SPAN_NODISCARD constexpr bool empty() const noexcept \x7b return size() == 0; \x7d
    constexpr pointer data() const noexcept \x7b return storage_.ptr; \x7d
    constexpr iterator begin() const noexcept \x7b return data(); \x7d
    constexpr iterator end() const noexcept \x7b return data() + size(); \x7d
\x7d;
"

/-- Verbatim text of `test_ollama.hpp`, lines 42-55: the documentation
block intended for `myFunction`, the stray qualified function header, the
unmatched terminator, and the actual declaration. -/
def test_ollama_region : String :=
  "/**
    @brief Performs specific operation on the instance of MyClass.

    This function does not take any parameters.

    @return Void, as it modifies the state of the MyClass instance.

    @warning This function may have side effects on other parts of the system if not used correctly.

    @see MyClass for more information about the class this function belongs to.
   */
   void Test::MyClass::myFunction()
 */
        void myFunction();
"

/-- Text of the stray qualified function header inside the garbled
region. -/
def strayHeader : String := "void Test::MyClass::myFunction()"

/-- Text of the actual declaration of `myFunction`. -/
def myFunctionDecl : String := "void myFunction();"

/-- Opening words of the documentation block of the garbled region. -/
def garbledDocWords : String := "Performs specific operation"

/-! ## Claims C6 and C8 -/

set_option maxRecDepth 8000 in
/-- Claim C6: `test_ollama.hpp` contains a garbled comment block: in the
region before the declaration of `Test::MyClass::myFunction` (lines
42-55) the documentation block closes early, so the qualified function
header `void Test::MyClass::myFunction()` is left outside any comment
(it survives comment removal, unlike the documentation text itself,
which is stripped), and exactly one unmatched comment terminator `*/ `
remains in the text. -/
theorem claim6_garbled_comment :
    strayCloseCount test_ollama_region.data = 1 ∧
    occursIn strayHeader.data (stripComments test_ollama_region.data) =
      true ∧
    occursIn myFunctionDecl.data (stripComments test_ollama_region.data) =
      true ∧
    occursIn garbledDocWords.data
      (stripComments test_ollama_region.data) = false := by
  decide

/-- Claim C8: Doxygen-style comment blocks are not evaluated at build or
run time: two versions of `test_span_methods.hpp` that differ only in the
text of a leading documentation comment yield identical program text
after the comment-removal phase of translation, so every function in the
file embeds to the same function regardless of comment content. -/
theorem claim8_comment_invariance (body1 body2 : List Char)
    (h1 : hasStarSlash body1 = false) (h2 : hasStarSlash body2 = false) :
    stripComments (mkBlockComment body1 ++ test_span_methods_text.data) =
      stripComments (mkBlockComment body2 ++ test_span_methods_text.data)
    := by
  rw [stripComments_insert body1 _ h1, stripComments_insert body2 _ h2]

/-- Witness for claim C8 at two concrete comment bodies. -/
theorem claim8_comment_invariance_witness :
    stripComments
        (mkBlockComment (("* @brief A span over contiguous storage. ").data)
          ++ test_span_methods_text.data) =
      stripComments
        (mkBlockComment (("* Completely different documentation text. ").data)
          ++ test_span_methods_text.data) :=
  claim8_comment_invariance _ _ (by decide) (by decide)

end DoxyllmIt
